import Mathlib

/-!
Shallow embedding of `cache_model.py` (HuggingFace model cache loader).

The script validates its inputs, checks whether a model already sits under an
S3 prefix, and otherwise downloads the model to a temporary directory and
uploads the tree concurrently, cleaning the directory up in a `finally` block.

External effects (the boto3 client, `snapshot_download`, `tempfile.mkdtemp`,
`shutil.rmtree`, the filesystem walk) are modelled as oracle parameters; the
Python control flow around them is translated directly.
-/

/-- Error values raised by the Python runtime and libraries, keyed by the
exception classes the script distinguishes (`ClientError`, `HfHubHTTPError`,
`OSError`, `RuntimeError`, and a catch-all). -/
inductive PyErr where
  | clientError
  | hfHubError
  | osError
  | runtimeError
  | otherError
deriving DecidableEq

/-- Values of `OSError`: the only exception class `shutil.rmtree` raises and the
only one `cleanup_local_files` catches. -/
inductive OSErr where
  | permissionDenied
  | otherOSError
deriving DecidableEq

/-- The four `ValueError` branches of `validate_inputs`, in source order. -/
inductive ValidationError where
  | invalidModelName
  | invalidBucket
  | prefixTraversal
  | prefixAbsolute
deriving DecidableEq

/- ### Character classes of the two regular expressions -/

/-- Character class `[a-zA-Z0-9]` (ASCII, as in Python `re`). -/
def reAlnum (c : Char) : Bool := c.isAlpha || c.isDigit

/-- Character class `[a-zA-Z0-9._-]`. -/
def modelBodyChar (c : Char) : Bool :=
  reAlnum c || c = '.' || c = '_' || c = '-'

/-- Character class `[a-z0-9]`. -/
def lowerAlnum (c : Char) : Bool := c.isLower || c.isDigit

/-- Character class `[a-z0-9.-]`. -/
def bucketBodyChar (c : Char) : Bool :=
  lowerAlnum c || c = '.' || c = '-'

/-- One segment `[a-zA-Z0-9][a-zA-Z0-9._-]*` of the MODEL_NAME pattern. -/
def segmentOk : List Char → Bool
  | [] => false
  | c :: rest => reAlnum c && rest.all modelBodyChar

/-- Full match of `[a-zA-Z0-9][a-zA-Z0-9._-]*(/[a-zA-Z0-9][a-zA-Z0-9._-]*)?`:
since `/` is outside both character classes, splitting on `/` is exact. -/
def modelFullMatch (cs : List Char) : Bool :=
  match cs.splitOn '/' with
  | [s1] => segmentOk s1
  | [s1, s2] => segmentOk s1 && segmentOk s2
  | _ => false

/-- Full match of `[a-z0-9][a-z0-9.-]{1,61}[a-z0-9]`. -/
def bucketFullMatch (cs : List Char) : Bool :=
  decide (3 ≤ cs.length) && decide (cs.length ≤ 63) &&
  (match cs.head? with | some a => lowerAlnum a | none => false) &&
  (match cs.getLast? with | some b => lowerAlnum b | none => false) &&
  ((cs.drop 1).dropLast.all bucketBodyChar)

/-- Python `re`: a final `$` also matches just before one trailing newline, so
`re.match(r'^P$', s)` succeeds on `s` or on `s` minus a final `'\n'`. -/
def reDollarMatch (core : List Char → Bool) (cs : List Char) : Bool :=
  core cs ||
    (match cs.getLast? with
     | some c => c = '\n' && core cs.dropLast
     | none => false)

/-- The check `re.match(model_pattern, model_name)` of `validate_inputs`. -/
def modelRegexAccepts (s : String) : Bool := reDollarMatch modelFullMatch s.data

/-- The check `re.match(bucket_pattern, s3_bucket)` of `validate_inputs`. -/
def bucketRegexAccepts (s : String) : Bool := reDollarMatch bucketFullMatch s.data

/-- Python substring test for two dots: some position starts two consecutive dots. -/
def hasDotDotChars : List Char → Bool
  | [] => false
  | [_] => false
  | a :: b :: rest => (a = '.' && b = '.') || hasDotDotChars (b :: rest)

/-- The two-dot substring test on a `String`. -/
def strHasDotDot (s : String) : Bool := hasDotDotChars s.data

/-- Python `s.startswith(pre)` via the underlying character list. -/
def charsIsPrefixOf : List Char → List Char → Bool
  | [], _ => true
  | _ :: _, [] => false
  | a :: as, b :: bs => a = b && charsIsPrefixOf as bs

/-- Python `s.startswith(pre)` on `String`s. -/
def strStartsWith (s pre : String) : Bool := charsIsPrefixOf pre.data s.data

/-- Python `s.endswith('/')`. -/
def strEndsWithSlash (s : String) : Bool :=
  match s.data.getLast? with
  | some c => c = '/'
  | none => false

/-- Embedding of `validate_inputs(model_name, s3_bucket, s3_prefix)`: the four checks in
source order, the first failing one raising `ValueError`. -/
def validate_inputs (model_name s3_bucket s3PrefixArg : String) :
    Except ValidationError Unit :=
  if !modelRegexAccepts model_name then .error .invalidModelName
  else if !bucketRegexAccepts s3_bucket then .error .invalidBucket
  else if strHasDotDot s3PrefixArg then .error .prefixTraversal
  else if strStartsWith s3PrefixArg ("/") then .error .prefixAbsolute
  else .ok ()

/-- Embedding of `mask_credential(value)`; `none` models Python `None` (the `not value`
branch also catches `""`, which the length test covers as well). -/
def mask_credential : Option String → String
  | none => "***"
  | some value =>
      if value.length < 8 then ("***")
      else value.take 4 ++ "***" ++ value.takeRight 4

/- ### Object store gateway: `model_exists_in_s3` -/

/-- The single `list_objects_v2` request `model_exists_in_s3` issues:
`Bucket`, `Prefix` and `MaxKeys`. -/
structure ListRequest where
  bucket : String
  keyPfx : String
  maxKeys : Nat
deriving DecidableEq

/-- The part of a `list_objects_v2` response the script reads: `Contents`
is absent (`none`) when no object matches. -/
structure ListResponse where
  contents : Option (List String)
deriving DecidableEq

/-- Embedding of `model_exists_in_s3(s3_client, bucket, prefix)`: one listing request with
`MaxKeys=1`; result is the presence of the Contents field; a `ClientError` is logged and
re-raised. The client is an oracle from requests to responses. -/
def model_exists_in_s3 (svc : ListRequest → Except PyErr ListResponse)
    (bucket pfx : String) : Except PyErr Bool :=
  match svc ⟨bucket, pfx, 1⟩ with
  | .ok response => .ok response.contents.isSome
  | .error e => .error e

/-- Reference S3 listing semantics over a bucket state given as the list of
stored keys: return up to `maxKeys` keys that start with the prefix, omitting
`Contents` when none match. -/
def s3Listing (keys : List String) (req : ListRequest) :
    Except PyErr ListResponse :=
  let matching := keys.filter (fun k => strStartsWith k req.keyPfx)
  .ok ⟨if matching.isEmpty then none else some (matching.take req.maxKeys)⟩

/- ### Model fetcher: `download_model_from_hf` -/

/-- Embedding of `download_model_from_hf(model_name, download_dir, hf_token)`.
`snapshot` is the oracle outcome of `snapshot_download` (which received
`download_dir` as `local_dir`); `path_exists` is the oracle for
`os.path.exists`. The function returns the path `snapshot_download` reported
after checking only that this path exists (`RuntimeError` otherwise); the
remaining body (file count, sizes, speed) is logging only. -/
def download_model_from_hf (snapshot : Except PyErr String)
    (path_exists : String → Bool) (_download_dir : String) :
    Except PyErr String :=
  match snapshot with
  | .error e => .error e
  | .ok download_path =>
      if path_exists download_path then .ok download_path
      else .error .runtimeError

/- ### Upload orchestrator: `upload_directory_to_s3` -/

/-- One entry of `files_to_upload`: the
`(local_file_path, s3_key, relative_path)` triple built during the walk. -/
structure UploadTask where
  local_file_path : String
  s3_key : String
  relative_path : String
deriving DecidableEq

/-- Relative path from `os.path.relpath` joined back: relative path segments rendered with
the forward-slash separator of the container filesystem. -/
def joinSegs (segs : List String) : String := String.intercalate ("/") segs

/-- The in-function prefix normalization: `if not s3_prefix.endswith('/'):
s3_prefix += '/'`. -/
def normalizeKeyPfx (p : String) : String :=
  if strEndsWithSlash p then p else p ++ "/"

/-- The `os.walk` collection loop of `upload_directory_to_s3`: the walk is
modelled by `walkFiles`, the relative paths (as segment lists) of the regular
files under `local_dir`; each yields one `UploadTask` with
`s3_key = s3_prefix + relative_path`. -/
def files_to_upload (local_dir pfx : String) (walkFiles : List (List String)) :
    List UploadTask :=
  let p := normalizeKeyPfx pfx
  walkFiles.map fun segs =>
    let rel := joinSegs segs
    ⟨local_dir ++ "/" ++ rel, p ++ rel, rel⟩

/-- The `as_completed` loop: fold over the completed tasks (in completion
order), accumulating `(file_count, total_size)` from each `future.result()`;
the first observed task failure is logged and re-raised. `putObject` is the
oracle for `upload_file_to_s3` (bytes uploaded, or the error of the task). -/
def processCompleted (putObject : UploadTask → Except PyErr Nat) :
    List UploadTask → Except PyErr (Nat × Nat)
  | [] => .ok (0, 0)
  | t :: rest =>
      match putObject t with
      | .error e => .error e
      | .ok sz =>
          match processCompleted putObject rest with
          | .error e => .error e
          | .ok (c, s) => .ok (c + 1, s + sz)

/-- Embedding of `upload_directory_to_s3(s3_client, local_dir, bucket, s3_prefix)`:
normalize the prefix, build the task list from the walk, return early with
nothing uploaded when the list is empty (a logged warning), otherwise process
the tasks as they complete. `completed` is the completion order delivered by
`as_completed`, a permutation of the submitted tasks. -/
def upload_directory_to_s3 (putObject : UploadTask → Except PyErr Nat)
    (local_dir _bucket pfx : String) (walkFiles : List (List String))
    (completed : List UploadTask) : Except PyErr (Nat × Nat) :=
  let tasks := files_to_upload local_dir pfx walkFiles
  if tasks.isEmpty then .ok (0, 0)
  else processCompleted putObject completed

/- ### Cleanup: `cleanup_local_files` -/

/-- Embedding of `cleanup_local_files(directory)`: remove the tree if the directory exists;
any `OSError` from `shutil.rmtree` (its only exception class) is caught and
logged as a non-fatal warning, so the function never raises. `dirExists`
models `os.path.exists(directory)` and `rmtree` the removal outcome. -/
def cleanup_local_files (dirExists : Bool) (rmtree : Except OSErr Unit) :
    Except OSErr Unit :=
  if dirExists then
    match rmtree with
    | .ok _ => .ok ()
    | .error _ => .ok ()
  else .ok ()

/- ### Workflow controller: `main` -/

/-- Step 3 of `main`: append `'/'` to a non-empty `S3_PREFIX` lacking one,
then `full_s3_prefix = f"{s3_prefix}{model_name}/"`. -/
def fullS3Pfx (pfx model_name : String) : String :=
  (if !pfx.isEmpty && !strEndsWithSlash pfx then pfx ++ "/" else pfx) ++
    model_name ++ "/"

/-- The oracle outcomes of the effectful steps of `main`, in program order:
`validate_environment` (which exits on missing variables or validation
failure), `boto3.client`, the existence check, `tempfile.mkdtemp`, the
download, the upload, and `shutil.rmtree` inside the final cleanup. -/
structure RunOracles where
  configResult : Except Unit Unit
  clientResult : Except PyErr Unit
  existsResult : Except PyErr Bool
  mkdtempResult : Except PyErr String
  downloadResult : Except PyErr String
  uploadResult : Except PyErr Unit
  rmtreeResult : Except OSErr Unit

/-- Observable outcome of one `main` run: the process exit status, whether
`download_model_from_hf` was invoked, whether a local download directory was
created (`tempfile.mkdtemp` returned), which directory the `finally` block
cleaned (with the outcome of the cleanup call), and the created directory. -/
structure RunTrace where
  exitCode : Nat
  fetchInvoked : Bool
  dirCreated : Bool
  cleanupInvoked : Bool
  cleanupOutcome : Option (Except OSErr Unit)
  dlDir : Option String
  cleanedDir : Option String

/-- Embedding of `main()`: the try/except/finally flow. Every `except` clause calls
`sys.exit(1)`; the `finally` block runs `cleanup_local_files(download_dir)`
whenever `download_dir` was set and still exists (nothing in the flow removes
it before the `finally`, so creation implies existence there). -/
def mainRun (o : RunOracles) : RunTrace :=
  match o.configResult with
  | .error _ => ⟨1, false, false, false, none, none, none⟩
  | .ok _ =>
    match o.clientResult with
    | .error _ => ⟨1, false, false, false, none, none, none⟩
    | .ok _ =>
      match o.existsResult with
      | .error _ => ⟨1, false, false, false, none, none, none⟩
      | .ok true => ⟨0, false, false, false, none, none, none⟩
      | .ok false =>
        match o.mkdtempResult with
        | .error _ => ⟨1, false, false, false, none, none, none⟩
        | .ok d =>
          let co := some (cleanup_local_files true o.rmtreeResult)
          match o.downloadResult with
          | .error _ => ⟨1, true, true, true, co, some d, some d⟩
          | .ok _ =>
            match o.uploadResult with
            | .error _ => ⟨1, true, true, true, co, some d, some d⟩
            | .ok _ => ⟨0, true, true, true, co, some d, some d⟩

/- ### Sanity checks on the embedded validator -/

example : modelRegexAccepts ("gpt2") = true := by decide
example : modelRegexAccepts ("meta-llama/Llama-2-7b-hf") = true := by decide
example : modelRegexAccepts ("a/b/c") = false := by decide
example : modelRegexAccepts ("/abs") = false := by decide
example : modelRegexAccepts ("a..b") = true := by decide
example : bucketRegexAccepts ("my-bucket") = true := by decide
example : bucketRegexAccepts ("ab") = false := by decide
example : validate_inputs ("gpt2") ("my-bucket") ("models/") = .ok () := by rfl
example : validate_inputs ("gpt2") ("my-bucket") ("a..b") =
    .error .prefixTraversal := by rfl
example : validate_inputs ("gpt2") ("my-bucket") ("/abs") =
    .error .prefixAbsolute := by rfl
example : mask_credential (some ("AKIATEST1234567890AB")) = "AKIA***90AB" := by
  decide

/- ### Helper lemmas -/

/-- Appending a slash yields a string whose last character is a slash. -/
theorem strEndsWithSlash_append (s : String) :
    strEndsWithSlash (s ++ "/") = true := by
  have h : (s ++ "/").data = s.data ++ ['/'] := String.data_append s ("/")
  simp [strEndsWithSlash, h, List.getLast?_concat]

/-- A filtered list is empty exactly when no element satisfies the test. -/
theorem filter_isEmpty_eq_not_any {α : Type} (p : α → Bool) (l : List α) :
    (l.filter p).isEmpty = !l.any p := by
  induction l with
  | nil => rfl
  | cons a rest ih =>
      cases h : p a with
      | true => simp [List.filter, List.any, h]
      | false => simp [List.filter, List.any, h, ih]

/-- Function `cleanup_local_files` returns normally on every input. -/
theorem cleanup_local_files_ok (dirExists : Bool) (rmtree : Except OSErr Unit) :
    cleanup_local_files dirExists rmtree = .ok () := by
  cases dirExists <;> cases rmtree <;> rfl

/-- If some member of the completion list fails, the `as_completed` fold
raises. -/
theorem processCompleted_error (putObject : UploadTask → Except PyErr Nat)
    (l : List UploadTask) (t : UploadTask) (e : PyErr) (hmem : t ∈ l)
    (hfail : putObject t = .error e) :
    ∃ eB, processCompleted putObject l = .error eB := by
  induction l with
  | nil => exact absurd hmem (List.not_mem_nil t)
  | cons a rest ih =>
      cases hpa : putObject a with
      | error e0 => exact ⟨e0, by simp [processCompleted, hpa]⟩
      | ok sz =>
          have htail : t ∈ rest := by
            rcases List.mem_cons.mp hmem with h1 | h2
            · subst h1; rw [hfail] at hpa; exact Except.noConfusion hpa
            · exact h2
          obtain ⟨eB, hB⟩ := ih htail
          exact ⟨eB, by simp [processCompleted, hpa, hB]⟩

/-- The destination keys produced by the walk are the normalized prefix glued
to each relative path. -/
theorem files_to_upload_keys (d pfx : String) (walkFiles : List (List String)) :
    (files_to_upload d pfx walkFiles).map (fun t => t.s3_key) =
      walkFiles.map (fun segs => normalizeKeyPfx pfx ++ joinSegs segs) := by
  simp only [files_to_upload, List.map_map]
  rfl

/- ### Claim theorems -/

/-- C8. `mask_credential` keeps the first four and last four characters around
`***` for inputs of length at least 8, and collapses shorter inputs, the empty
string, and `None` to `***`; in particular on the two spec examples. -/
theorem mask_credential_spec (value : String) :
    (8 ≤ value.length →
      mask_credential (some value) =
        value.take 4 ++ "***" ++ value.takeRight 4) ∧
    (value.length < 8 → mask_credential (some value) = "***") ∧
    mask_credential (some ("")) = "***" ∧
    mask_credential none = "***" ∧
    mask_credential (some ("AKIATEST1234567890AB")) = "AKIA***90AB" ∧
    mask_credential (some ("short")) = "***" := by
  refine ⟨?_, ?_, rfl, rfl, by decide, rfl⟩
  · intro h
    simp [mask_credential, Nat.not_lt.mpr h]
  · intro h
    simp [mask_credential, h]

/-- Witness for C8 at the concrete credential from the spec. -/
theorem mask_credential_spec_witness :
    mask_credential (some ("AKIATEST1234567890AB")) =
      ("AKIATEST1234567890AB" : String).take 4 ++ "***" ++
        ("AKIATEST1234567890AB" : String).takeRight 4 :=
  (mask_credential_spec ("AKIATEST1234567890AB")).1 (by decide)

/-- C4 counterexample. A MODEL_NAME containing `..` passes `validate_inputs`:
the model-name pattern admits consecutive dots, so the claim that every
argument containing `..` is rejected is false. -/
theorem validate_dotdot_model_name_accepted :
    validate_inputs ("a..b") ("my-bucket") ("models/") = .ok () ∧
    strHasDotDot ("a..b") = true := ⟨rfl, rfl⟩

/-- C4 amended. Only the S3_PREFIX argument is screened for `..`: every prefix
containing `..` is rejected (the model name and bucket are checked only
against their character patterns, which admit `..`). -/
theorem validate_pfx_dotdot_rejected (m b p : String)
    (h : strHasDotDot p = true) : validate_inputs m b p ≠ .ok () := by
  intro hok
  unfold validate_inputs at hok
  cases hmod : modelRegexAccepts m <;> cases hbuc : bucketRegexAccepts b <;>
    simp [hmod, hbuc, h] at hok

/-- Witness for the amended C4 at a concrete traversal value. -/
theorem validate_pfx_dotdot_rejected_witness :
    strHasDotDot ("a..") = true ∧
    validate_inputs ("gpt2") ("my-bucket") ("a..") ≠ .ok () :=
  ⟨rfl, validate_pfx_dotdot_rejected ("gpt2") ("my-bucket") ("a..") rfl⟩

/-- C10. `validate_inputs` accepts the empty prefix whenever model name and
bucket pass their patterns; the full object-key prefix `main` derives appends
`/` to the configured prefix only when it is non-empty and lacks one, then
adds `modelId + "/"`, so it always ends in `/`, and an empty prefix keys
objects directly under `modelId + "/"`. -/
theorem empty_pfx_and_full_pfx (m b p : String) :
    (modelRegexAccepts m = true → bucketRegexAccepts b = true →
      validate_inputs m b ("") = .ok ()) ∧
    strEndsWithSlash (fullS3Pfx p m) = true ∧
    fullS3Pfx ("") m = m ++ "/" ∧
    (p.isEmpty = false → strEndsWithSlash p = false →
      fullS3Pfx p m = p ++ "/" ++ m ++ "/") ∧
    (strEndsWithSlash p = true → fullS3Pfx p m = p ++ m ++ "/") := by
  refine ⟨?_, ?_, ?_, ?_, ?_⟩
  · intro h1 h2
    have h3 : strHasDotDot ("") = false := rfl
    have h4 : strStartsWith ("") ("/") = false := rfl
    simp [validate_inputs, h1, h2, h3, h4]
  · exact strEndsWithSlash_append _
  · simp [fullS3Pfx, show ("" : String).isEmpty = true from rfl]
  · intro h1 h2
    simp [fullS3Pfx, h1, h2]
  · intro h
    simp [fullS3Pfx, h]

/-- Witness for C10: empty prefix accepted for a concrete model and bucket,
and the derived full prefix for prefix `models` (no trailing slash). -/
theorem empty_pfx_and_full_pfx_witness :
    validate_inputs ("gpt2") ("my-bucket") ("") = .ok () ∧
    fullS3Pfx ("models") ("gpt2") = "models/gpt2/" := by
  constructor
  · exact (empty_pfx_and_full_pfx ("gpt2") ("my-bucket") ("models")).1 rfl rfl
  · have h :=
      (empty_pfx_and_full_pfx ("gpt2") ("my-bucket") ("models")).2.2.2.1 rfl rfl
    rw [h]
    decide

/-- C6. `model_exists_in_s3` against the reference listing semantics returns
`ok` of "some stored key starts with the prefix"; any `ClientError` from the
listing is re-raised, never converted to `false`; and the result depends only
on the single request issued with `MaxKeys = 1`. -/
theorem exists_check_semantics :
    (∀ (keys : List String) (bucket pfx : String),
      model_exists_in_s3 (s3Listing keys) bucket pfx =
        .ok (keys.any (fun k => strStartsWith k pfx))) ∧
    (∀ (svc : ListRequest → Except PyErr ListResponse) (bucket pfx : String)
        (e : PyErr), svc ⟨bucket, pfx, 1⟩ = .error e →
      model_exists_in_s3 svc bucket pfx = .error e) ∧
    (∀ (svc svcB : ListRequest → Except PyErr ListResponse)
        (bucket pfx : String), svc ⟨bucket, pfx, 1⟩ = svcB ⟨bucket, pfx, 1⟩ →
      model_exists_in_s3 svc bucket pfx = model_exists_in_s3 svcB bucket pfx) := by
  refine ⟨?_, ?_, ?_⟩
  · intro keys bucket pfx
    simp only [model_exists_in_s3, s3Listing]
    cases hE : (keys.filter (fun k => strStartsWith k pfx)).isEmpty with
    | true =>
        have hA : keys.any (fun k => strStartsWith k pfx) = false := by
          have := filter_isEmpty_eq_not_any (fun k => strStartsWith k pfx) keys
          rw [hE] at this
          simpa using this.symm
        simp [hE, hA]
    | false =>
        have hA : keys.any (fun k => strStartsWith k pfx) = true := by
          have := filter_isEmpty_eq_not_any (fun k => strStartsWith k pfx) keys
          rw [hE] at this
          simpa using this.symm
        simp [hE, hA]
  · intro svc bucket pfx e h
    simp [model_exists_in_s3, h]
  · intro svc svcB bucket pfx h
    simp [model_exists_in_s3, h]

/-- Witness for C6: a populated prefix reports true, an empty bucket reports
false, and a failing client propagates its error. -/
theorem exists_check_semantics_witness :
    model_exists_in_s3 (s3Listing (["models/gpt2/config.json"])) ("b")
      ("models/gpt2/") = .ok true ∧
    model_exists_in_s3 (s3Listing ([])) ("b") ("models/gpt2/") = .ok false ∧
    model_exists_in_s3 (fun _ => .error .clientError) ("b") ("p") =
      .error .clientError := by
  refine ⟨?_, ?_, ?_⟩
  · have h := exists_check_semantics.1 (["models/gpt2/config.json"]) ("b")
      ("models/gpt2/")
    have hA : (["models/gpt2/config.json"] : List String).any
        (fun k => strStartsWith k ("models/gpt2/")) = true := by decide
    rw [hA] at h
    exact h
  · have h := exists_check_semantics.1 ([]) ("b") ("models/gpt2/")
    exact h
  · exact exists_check_semantics.2.1 (fun _ => .error .clientError) ("b") ("p")
      .clientError rfl

/-- C5 counterexample. When the hub client reports a path different from the
requested destination and that path exists, `download_model_from_hf` returns
it without any error: the returned path is not compared with the requested
destination. -/
theorem fetch_path_mismatch_accepted :
    download_model_from_hf (.ok ("/elsewhere")) (fun _ => true) ("/tmp/dl") =
      .ok ("/elsewhere") ∧ ("/elsewhere" : String) ≠ "/tmp/dl" :=
  ⟨rfl, by decide⟩

/-- C5 amended. For every fetch invocation that returns, the returned path is
exactly the path the hub client reported and it is verified to exist on disk;
a nonexistent reported path is a fatal `RuntimeError`. No comparison with the
requested destination directory is performed. -/
theorem fetch_path_check_existence (snapshot : Except PyErr String)
    (path_exists : String → Bool) (d p : String) :
    (download_model_from_hf snapshot path_exists d = .ok p →
      snapshot = .ok p ∧ path_exists p = true) ∧
    (snapshot = .ok p → path_exists p = false →
      download_model_from_hf snapshot path_exists d = .error .runtimeError) := by
  constructor
  · intro h
    cases hs : snapshot with
    | error e => simp [download_model_from_hf, hs] at h
    | ok q =>
        simp only [download_model_from_hf, hs] at h
        cases hp : path_exists q with
        | false => rw [hp] at h; simp at h
        | true =>
            rw [hp] at h
            simp only [if_true] at h
            have hq : q = p := by
              cases h
              rfl
            subst hq
            exact ⟨rfl, hp⟩
  · intro hs hp
    simp [download_model_from_hf, hs, hp]

/-- Witness for the amended C5: a returning fetch at a concrete path,
and a missing path turning into a `RuntimeError`. -/
theorem fetch_path_check_existence_witness :
    ((Except.ok ("/tmp/dl") : Except PyErr String) = .ok ("/tmp/dl") ∧
      (fun _ => true : String → Bool) ("/tmp/dl") = true) ∧
    download_model_from_hf (.ok ("/tmp/dl")) (fun _ => false) ("/tmp/dl") =
      .error .runtimeError := by
  constructor
  · exact (fetch_path_check_existence (.ok ("/tmp/dl")) (fun _ => true)
      ("/tmp/dl") ("/tmp/dl")).1 rfl
  · exact (fetch_path_check_existence (.ok ("/tmp/dl")) (fun _ => false)
      ("/tmp/dl") ("/tmp/dl")).2 rfl rfl

/-- C9. On a directory with zero regular files, `upload_directory_to_s3`
returns normally with zero files uploaded, independently of the upload
oracle (no upload is performed) and of the completion order. -/
theorem upload_empty_tree_ok (putObject : UploadTask → Except PyErr Nat)
    (local_dir bucket pfx : String) (completed : List UploadTask) :
    upload_directory_to_s3 putObject local_dir bucket pfx [] completed =
      .ok (0, 0) := rfl

/-- C7. The destination keys are exactly the normalized prefix (always ending
in `/`) glued to the relative path of each file with forward-slash separators: the
example tree of the spec yields exactly `p/a/b.txt` and `p/c.txt`, and prefixes
`models/test` and `models/test/` produce identical keys. -/
theorem upload_key_computation :
    ((files_to_upload ("/d") ("p/") ([["a", "b.txt"], ["c.txt"]])).map
        (fun t => t.s3_key) = ["p/a/b.txt", "p/c.txt"]) ∧
    (∀ (d pfx : String) (walkFiles : List (List String)),
      (files_to_upload d pfx walkFiles).map (fun t => t.s3_key) =
        walkFiles.map (fun segs => normalizeKeyPfx pfx ++ joinSegs segs)) ∧
    (∀ pfx : String, strEndsWithSlash (normalizeKeyPfx pfx) = true) ∧
    (∀ (d : String) (walkFiles : List (List String)),
      (files_to_upload d ("models/test") walkFiles).map (fun t => t.s3_key) =
        (files_to_upload d ("models/test/") walkFiles).map
          (fun t => t.s3_key)) := by
  refine ⟨by decide, files_to_upload_keys, ?_, ?_⟩
  · intro pfx
    unfold normalizeKeyPfx
    cases h : strEndsWithSlash pfx with
    | true => simp [h]
    | false => simp [h, strEndsWithSlash_append]
  · intro d walkFiles
    rw [files_to_upload_keys, files_to_upload_keys]
    have h : normalizeKeyPfx ("models/test") = normalizeKeyPfx ("models/test/") := by
      decide
    rw [h]

/-- C3. If `putObject` fails for any upload task, `upload_directory_to_s3`
raises rather than returning success, for every completion order delivered by
`as_completed`. -/
theorem upload_failure_propagates (putObject : UploadTask → Except PyErr Nat)
    (local_dir bucket pfx : String) (walkFiles : List (List String))
    (completed : List UploadTask) (t : UploadTask) (e : PyErr)
    (hperm : completed.Perm (files_to_upload local_dir pfx walkFiles))
    (hmem : t ∈ files_to_upload local_dir pfx walkFiles)
    (hfail : putObject t = .error e) :
    ∃ eB, upload_directory_to_s3 putObject local_dir bucket pfx walkFiles
        completed = .error eB := by
  have hmem2 : t ∈ completed := hperm.symm.subset hmem
  have hne : (files_to_upload local_dir pfx walkFiles).isEmpty = false := by
    cases hE : (files_to_upload local_dir pfx walkFiles).isEmpty with
    | false => rfl
    | true =>
        rw [List.isEmpty_iff.mp hE] at hmem
        exact absurd hmem (List.not_mem_nil t)
  obtain ⟨eB, hB⟩ := processCompleted_error putObject completed t e hmem2 hfail
  exact ⟨eB, by simp [upload_directory_to_s3, hne, hB]⟩

/-- Witness for C3: a one-file tree whose single upload fails makes the whole
call fail. -/
theorem upload_failure_propagates_witness :
    ∃ eB, upload_directory_to_s3 (fun _ => .error .clientError) ("/d") ("b")
        ("p/") ([["a.txt"]]) ([⟨"/d/a.txt", "p/a.txt", "a.txt"⟩]) =
      .error eB :=
  upload_failure_propagates (fun _ => .error .clientError) ("/d") ("b") ("p/")
    ([["a.txt"]]) ([⟨"/d/a.txt", "p/a.txt", "a.txt"⟩])
    ⟨"/d/a.txt", "p/a.txt", "a.txt"⟩ .clientError (by decide)
    (by decide) rfl

/-- C1. When the existence check reports the model already in S3, the run
exits 0, `download_model_from_hf` is never invoked, and no local download
directory is created (so nothing is cleaned up). -/
theorem existing_model_skips_download (o : RunOracles)
    (hc : o.configResult = .ok ()) (hcl : o.clientResult = .ok ())
    (he : o.existsResult = .ok true) :
    (mainRun o).exitCode = 0 ∧ (mainRun o).fetchInvoked = false ∧
    (mainRun o).dirCreated = false ∧ (mainRun o).cleanupInvoked = false := by
  rcases o with ⟨c, cl, ex, mk, dl, ul, rm⟩
  simp only at hc hcl he
  subst hc
  subst hcl
  subst he
  exact ⟨rfl, rfl, rfl, rfl⟩

/-- Witness for C1 at a concrete oracle assignment. -/
theorem existing_model_skips_download_witness :
    (mainRun ⟨.ok (), .ok (), .ok true, .ok ("/tmp/x"), .ok ("/tmp/x"),
        .ok (), .ok ()⟩).exitCode = 0 ∧
    (mainRun ⟨.ok (), .ok (), .ok true, .ok ("/tmp/x"), .ok ("/tmp/x"),
        .ok (), .ok ()⟩).fetchInvoked = false ∧
    (mainRun ⟨.ok (), .ok (), .ok true, .ok ("/tmp/x"), .ok ("/tmp/x"),
        .ok (), .ok ()⟩).dirCreated = false ∧
    (mainRun ⟨.ok (), .ok (), .ok true, .ok ("/tmp/x"), .ok ("/tmp/x"),
        .ok (), .ok ()⟩).cleanupInvoked = false :=
  existing_model_skips_download
    ⟨.ok (), .ok (), .ok true, .ok ("/tmp/x"), .ok ("/tmp/x"), .ok (), .ok ()⟩
    rfl rfl rfl

/-- C2. Whenever a local download directory was created, the `finally` block
invokes cleanup on exactly that directory before the process exits, on
success and on every failure path; the exit status of the run never depends on the
`rmtree` outcome; and `cleanup_local_files` returns normally on every input
(an `OSError` during removal is caught and logged). -/
theorem cleanup_unconditional_nonfatal :
    (∀ o : RunOracles, (mainRun o).dirCreated = true →
      (mainRun o).cleanupInvoked = true ∧
      (mainRun o).cleanedDir = (mainRun o).dlDir ∧
      (mainRun o).cleanupOutcome = some (.ok ())) ∧
    (∀ (c : Except Unit Unit) (cl : Except PyErr Unit)
        (ex : Except PyErr Bool) (mk dl : Except PyErr String)
        (ul : Except PyErr Unit) (rm rmB : Except OSErr Unit),
      (mainRun ⟨c, cl, ex, mk, dl, ul, rm⟩).exitCode =
        (mainRun ⟨c, cl, ex, mk, dl, ul, rmB⟩).exitCode) ∧
    (∀ (dirExists : Bool) (rmtree : Except OSErr Unit),
      cleanup_local_files dirExists rmtree = .ok ()) := by
  refine ⟨?_, ?_, cleanup_local_files_ok⟩
  · intro o h
    rcases o with ⟨c, cl, ex, mk, dl, ul, rm⟩
    rcases c with e | c0
    · simp [mainRun] at h
    · rcases cl with e | c1
      · simp [mainRun] at h
      · rcases ex with e | b
        · simp [mainRun] at h
        · rcases b with _ | _
          · rcases mk with e | d
            · simp [mainRun] at h
            · rcases dl with e | pth
              · exact ⟨rfl, rfl, by
                  show some (cleanup_local_files true rm) = some (.ok ())
                  rw [cleanup_local_files_ok]⟩
              · rcases ul with e | u
                · exact ⟨rfl, rfl, by
                    show some (cleanup_local_files true rm) = some (.ok ())
                    rw [cleanup_local_files_ok]⟩
                · exact ⟨rfl, rfl, by
                    show some (cleanup_local_files true rm) = some (.ok ())
                    rw [cleanup_local_files_ok]⟩
          · simp [mainRun] at h
  · intro c cl ex mk dl ul rm rmB
    rcases c with e | c0
    · rfl
    · rcases cl with e | c1
      · rfl
      · rcases ex with e | b
        · rfl
        · rcases b with _ | _
          · rcases mk with e | d
            · rfl
            · rcases dl with e | pth
              · rfl
              · rcases ul with e | u
                · rfl
                · rfl
          · rfl

/-- Witness for C2: a failing-upload run with a failing `rmtree` still has a
created directory, an invoked non-raising cleanup of that directory, and the
witnessed cleanup result. -/
theorem cleanup_unconditional_nonfatal_witness :
    (mainRun ⟨.ok (), .ok (), .ok false, .ok ("/tmp/hf_model_x"),
        .ok ("/tmp/hf_model_x"), .error .clientError,
        .error .permissionDenied⟩).dirCreated = true ∧
    (mainRun ⟨.ok (), .ok (), .ok false, .ok ("/tmp/hf_model_x"),
        .ok ("/tmp/hf_model_x"), .error .clientError,
        .error .permissionDenied⟩).cleanupInvoked = true ∧
    (mainRun ⟨.ok (), .ok (), .ok false, .ok ("/tmp/hf_model_x"),
        .ok ("/tmp/hf_model_x"), .error .clientError,
        .error .permissionDenied⟩).cleanupOutcome = some (.ok ()) := by
  have h := cleanup_unconditional_nonfatal.1
    ⟨.ok (), .ok (), .ok false, .ok ("/tmp/hf_model_x"),
      .ok ("/tmp/hf_model_x"), .error .clientError,
      .error .permissionDenied⟩ rfl
  exact ⟨rfl, h.1, h.2.2⟩
